import Mathlib

/-!
Verification development for the robot-orchestrator repository
(`week8modded.py`, `usb_interface_upd.py`, `send_request.py`).

The Python source is shallowly embedded: pure fragments become Lean
functions, the concurrent workers become a labelled step relation on an
explicit state record, and Python exceptions become `Except` values.
Machine integers of the source are modelled by `Int`/`Nat`; Python float
arguments that the source only ever feeds through `str`-style formatting
are modelled by their printed decimal string, since every claim about
them concerns the formatted text only.
-/

namespace Rpi

/-! ## Data model (`week8modded.py` / `communication.android`) -/

/-- Payload of an `AndroidMessage`: either a plain string or the
`x`/`y`/`d` dictionary used by `location` messages. -/
inductive AMValue
  | str (s : String)
  | locv (x y d : Int)
deriving DecidableEq, Repr

/-- `AndroidMessage(cat, value)` from `communication.android`:
a category string plus a payload. -/
structure AndroidMessage where
  cat : String
  value : AMValue
deriving DecidableEq, Repr

/-- One entry of `path_queue`: the expected `x`,`y`,`d` coordinates of the
robot after a command (`week8modded.py` line 37). -/
structure Loc where
  x : Int
  y : Int
  d : Int
deriving DecidableEq, Repr

/-- One entry of the controller link's `state_queue`
(`usb_interface_upd.py` line 36): the 4-tuple passed to
`queue_state_transition(state, motor_speed, param, scale)`.  The
`param`/`scale` arguments are Python ints or floats that the source only
ever formats with an f-string; they are modelled by that printed decimal
string (e.g. `70.0`, `1.7`, `0`). -/
structure CtrlCmd where
  state : String
  motor_speed : Int
  param : String
  scale : String
deriving DecidableEq, Repr

/-! ## Controller link (`usb_interface_upd.py`) -/

/-- Python's `str.ljust(w)`: pad on the right with spaces up to width `w`;
a string already at least `w` long is returned unchanged. -/
def ljust (s : String) (w : Nat) : String :=
  s ++ String.mk (List.replicate (w - s.length) ' ')

/-- `send_message(state, motor_speed, param, scale)`
(`usb_interface_upd.py` lines 61-68): format
`f"{state} {motor_speed} {param} {scale}"`, pad with `ljust(30)`, and
write the result to the serial channel.  The returned string is the
frame written; for the ASCII frames of this protocol its character count
equals the byte count of `padded_message.encode()`. -/
def send_message (state : String) (motor_speed : Int) (param scale : String) : String :=
  ljust (state ++ " " ++ toString motor_speed ++ " " ++ param ++ " " ++ scale) 30

/-- The frame `send_message(*c)` writes for a queued tuple `c`. -/
def frameOf (c : CtrlCmd) : String :=
  send_message c.state c.motor_speed c.param c.scale

/-- One iteration of `receive_thread` (`usb_interface_upd.py` lines
40-55) after a line has been read and stripped: on `"0"` dequeue and
send the next pending command if the queue is non-empty; `"1"` and any
other line only print.  Returns the new outbound queue and the list of
frames written to the serial channel by this iteration. -/
def receive_step (q : List CtrlCmd) (line : String) : List CtrlCmd × List String :=
  if line = "0" then
    match q with
    | [] => (q, [])
    | c :: rest => (rest, [frameOf c])
  else if line = "1" then
    (q, [])
  else
    (q, [])

/-- `receive_thread` run over a whole stream of inbound lines, starting
from outbound queue `q`: final queue and concatenated frames written. -/
def receive_run (q : List CtrlCmd) : List String → List CtrlCmd × List String
  | [] => (q, [])
  | l :: ls =>
    let r1 := receive_step q l
    let r2 := receive_run r1.1 ls
    (r2.1, r1.2 ++ r2.2)

/-- Number of `"0"` (previous-state-completed) lines in a stream. -/
def count0 : List String → Nat
  | [] => 0
  | l :: ls => if l = "0" then count0 ls + 1 else count0 ls

/-- The frames the controller link writes while processing `ls` with all
of `cmds` already enqueued. -/
def sentFrames (cmds : List CtrlCmd) (ls : List String) : List String :=
  (receive_run cmds ls).2

/-- How many of the sent commands have been completed by the controller
after `ls`: the `(j+1)`-th `"0"` line reports completion of the `j`-th
command sent (the first `"0"` predates every command), capped by the
number of commands actually sent. -/
def completedCount (cmds : List CtrlCmd) (ls : List String) : Nat :=
  min (sentFrames cmds ls).length (count0 ls - 1)

/-- Python's `str.startswith`, modelled structurally on the character
list so that it evaluates inside the kernel. -/
def strStartsWith (s p : String) : Bool :=
  p.data.isPrefixOf s.data

/-! ## Orchestrator shared state (`week8modded.py`) -/

/-- The process-wide shared state created in `RaspberryPi.__init__`
(`week8modded.py` lines 18-50) together with the controller link's
queues from `usb_interface_upd.py`:
* `lock_held` — `movement_lock` (line 30), `true` when acquired;
* `unpause` — the `unpause` event / StartGate (line 28);
* `rs_flag` — the acknowledgment worker's two-state flag (line 45),
  `false` = `AWAITING_RESET_ACK`, `true` = `NORMAL`;
* `command_queue` — directive strings for the follower (line 36);
* `path_queue` — expected locations, paired with movement commands
  (line 38);
* `current_location` — the `current_location` dict (line 49), `none`
  before the first acknowledged movement;
* `android_queue` — outbound `AndroidMessage`s (line 32);
* `android_dropped` — the `android_dropped` event (line 27);
* `state_queue` — the controller link's outbound queue
  (`usb_interface_upd.py` line 36);
* `stm_pending` — frames already written to the serial channel whose
  acknowledgment from the STM32 is still outstanding. -/
structure SysState where
  lock_held : Bool
  unpause : Bool
  rs_flag : Bool
  command_queue : List String
  path_queue : List Loc
  current_location : Option Loc
  android_queue : List AndroidMessage
  android_dropped : Bool
  state_queue : List CtrlCmd
  stm_pending : List CtrlCmd
deriving DecidableEq, Repr

/-- The state right after `RaspberryPi.__init__`: lock free, StartGate
closed, `rs_flag = False` (`AWAITING_RESET_ACK`), all queues empty. -/
def initState : SysState :=
  { lock_held := false, unpause := false, rs_flag := false,
    command_queue := [], path_queue := [], current_location := none,
    android_queue := [], android_dropped := false,
    state_queue := [], stm_pending := [] }

/-- One iteration of `recv_stm` (`week8modded.py` lines 203-238) on a
decoded, stripped line.  On an `ACK`-prefixed line: the first one only
flips `rs_flag`; afterwards the lock is released, then one entry is
popped from `path_queue` with `get_nowait` — on `Empty` the exception
handler only logs a warning (the release already happened), otherwise
`current_location` is updated and one `location` `AndroidMessage` is
enqueued.  Releasing an unheld manager lock raises, which the outer
`except Exception` handler absorbs after logging, leaving the state
unchanged.  Non-`ACK` lines are logged and ignored. -/
def recv_stm_step (s : SysState) (line : String) : SysState :=
  if strStartsWith line "ACK" then
    if s.rs_flag = false then
      { s with rs_flag := true }
    else if s.lock_held = false then
      s
    else
      match s.path_queue with
      | [] => { s with lock_held := false }
      | loc :: rest =>
        { s with lock_held := false, path_queue := rest,
                 current_location := some loc,
                 android_queue := s.android_queue ++
                   [⟨"location", AMValue.locv loc.x loc.y loc.d⟩] }
  else
    s

/-- The `message['cat'] == "control"`/`value == "start"` branch of
`recv_android` (`week8modded.py` lines 176-201).  `api_up` is the result
of `self.check_api()`.  Modelled from the spec: `check_api` is called
here but not defined anywhere under `src/`; per the spec it checks Path
Planner service reachability and reports whether the service answered.
The branch structure below is taken verbatim from the source: the
API-down case enqueues an error message but does *not* return, so
control falls through to the command-queue check. -/
def handle_start (api_up : Bool) (s : SysState) : SysState :=
  let s1 :=
    if api_up then s
    else
      { s with android_queue := s.android_queue ++
          [⟨"error", AMValue.str "API is down, start command aborted."⟩] }
  if s1.command_queue.isEmpty then
    { s1 with android_queue := s1.android_queue ++
        [⟨"error", AMValue.str "Command queue is empty, did you set obstacles?"⟩] }
  else
    { s1 with state_queue := s1.state_queue ++ [⟨"RS00", 0, "0", "0"⟩],
              unpause := true,
              android_queue := s1.android_queue ++
                [⟨"info", AMValue.str "Starting robot on path!"⟩,
                 ⟨"status", AMValue.str "running"⟩] }

/-- The tuple of recognized controller directive codes
(`week8modded.py` lines 275-276). -/
def stm32_codes : List String :=
  ["FS", "BS", "FW", "BW", "FL", "FR", "BL",
   "BR", "TL", "TR", "A", "C", "DT", "STOP", "ZZ", "RS"]

/-- `command.startswith(stm32_prefixes)` (`week8modded.py` line 277). -/
def isStmCommand (d : String) : Bool :=
  stm32_codes.any (fun p => strStartsWith d p)

/-! ## The system step relation

Each constructor is one observable iteration of one worker of
`week8modded.py` (or one environment event), labelled by a `Rule`.
Worker iterations are modelled atomically at the granularity of their
blocking points. -/

/-- Labels naming which piece of the program (or environment) performs
a step. -/
inductive Rule
  | followerStep
  | ctrlZeroSend
  | stmAck
  | appStart (api_up : Bool)
  | appRecvDrop
  | appSenderPop
  | appSenderDrop
  | reconnectCycle
  | envCommand (d : String)
  | envPath (l : Loc)
  | noop
deriving DecidableEq, Repr

/-- Labelled transition relation over the shared state.  Constructors:
* `follower` — one iteration of `command_follower` (lines 257-278):
  dequeue the head directive once StartGate is open and the lock is
  free, acquire the lock, and forward `queue_state_transition(d,0,0,0)`
  to the controller link's `state_queue` only when the directive starts
  with a recognized code;
* `ctrl_zero` — `receive_thread` reads `"0"` with a non-empty
  `state_queue` and writes the head frame to the serial channel
  (`usb_interface_upd.py` lines 45-50);
* `stm_ack` — the STM32 acknowledges the oldest outstanding frame with
  an `ACK`-prefixed line, which `recv_stm` processes;
* `app_start` — `recv_android` handles a `control`/`start` message;
* `app_recv_drop` — `recv_android` sees `OSError` and sets
  `android_dropped` (lines 160-162);
* `app_sender_pop` / `app_sender_drop` — `android_sender` dequeues one
  message and sends it, the latter when the send raises `OSError` and
  sets `android_dropped` (lines 240-255);
* `reconnect` — one `reconnect_android` cycle's queue/flag effects
  (lines 109-150);
* `env_command` / `env_path` — modelled from the spec: `request_algo`
  (called from `rpi_action` but not defined under `src/`) enqueues the
  planner's directives to `command_queue` and expected locations to
  `path_queue`;
* `idle` — any worker iteration with no shared-state effect (unknown
  serial lines, logged read errors, `obstacles` messages, waiting). -/
inductive SysStep : Rule → SysState → SysState → Prop
  | follower (s : SysState) (d : String) (rest : List String)
      (hq : s.command_queue = d :: rest) (hu : s.unpause = true)
      (hl : s.lock_held = false) :
      SysStep Rule.followerStep s
        { s with command_queue := rest, lock_held := true,
                 state_queue :=
                   if isStmCommand d then s.state_queue ++ [⟨d, 0, "0", "0"⟩]
                   else s.state_queue }
  | ctrl_zero (s : SysState) (c : CtrlCmd) (rest : List CtrlCmd)
      (hq : s.state_queue = c :: rest) :
      SysStep Rule.ctrlZeroSend s
        { s with state_queue := rest, stm_pending := s.stm_pending ++ [c] }
  | stm_ack (s : SysState) (line : String) (c : CtrlCmd) (rest : List CtrlCmd)
      (hack : strStartsWith line "ACK" = true) (hp : s.stm_pending = c :: rest) :
      SysStep Rule.stmAck s { recv_stm_step s line with stm_pending := rest }
  | app_start (s : SysState) (api_up : Bool) :
      SysStep (Rule.appStart api_up) s (handle_start api_up s)
  | app_recv_drop (s : SysState) :
      SysStep Rule.appRecvDrop s { s with android_dropped := true }
  | app_sender_pop (s : SysState) (m : AndroidMessage) (rest : List AndroidMessage)
      (hq : s.android_queue = m :: rest) :
      SysStep Rule.appSenderPop s { s with android_queue := rest }
  | app_sender_drop (s : SysState) (m : AndroidMessage) (rest : List AndroidMessage)
      (hq : s.android_queue = m :: rest) :
      SysStep Rule.appSenderDrop s
        { s with android_queue := rest, android_dropped := true }
  | reconnect (s : SysState) (hd : s.android_dropped = true) :
      SysStep Rule.reconnectCycle s
        { s with android_dropped := false,
                 android_queue := s.android_queue ++
                   [⟨"info", AMValue.str "You are reconnected!"⟩,
                    ⟨"mode", AMValue.str "path"⟩] }
  | env_command (s : SysState) (d : String) :
      SysStep (Rule.envCommand d) s
        { s with command_queue := s.command_queue ++ [d] }
  | env_path (s : SysState) (l : Loc) :
      SysStep (Rule.envPath l) s { s with path_queue := s.path_queue ++ [l] }
  | idle (s : SysState) : SysStep Rule.noop s s

/-- A quiescent wedged state: the movement lock is held while no frame
is queued at the controller link and none is awaiting acknowledgment,
so no acknowledgment that could release the lock is on its way. -/
def Wedged (s : SysState) : Prop :=
  s.lock_held = true ∧ s.state_queue = [] ∧ s.stm_pending = []

/-! ## Reconnection supervisor (`week8modded.py` lines 109-150)

Worker processes are modelled by numeric ids handed out in creation
order; `live_app` lists the ids of the currently live app-send and
app-receive workers. -/

/-- Supervisor-view state: `proc_sender`/`proc_recv` are the tracked
`self.proc_android_sender`/`self.proc_recv_android` handles, `live_app`
the ids of all live app workers, `next_pid` the next fresh id,
`link_gen` counts how many times the app transport has been
(re-)established. -/
structure SupState where
  proc_sender : Nat
  proc_recv : Nat
  live_app : List Nat
  next_pid : Nat
  link_gen : Nat
  android_queue : List AndroidMessage
  android_dropped : Bool
deriving DecidableEq, Repr

/-- One cycle of the `reconnect_android` loop body after
`android_dropped.wait()` returns (lines 115-150): `kill` + `join` both
tracked app workers (the asserts at lines 127-128 confirm termination),
`disconnect` then `connect` the app link, create and start a fresh
receive worker then a fresh send worker, enqueue the reconnect `info`
and the `mode`/`path` messages, and `clear` the dropped flag. -/
def reconnect_cycle (s : SupState) : SupState :=
  { proc_recv := s.next_pid,
    proc_sender := s.next_pid + 1,
    live_app := (s.live_app.filter
        (fun p => p ≠ s.proc_sender && p ≠ s.proc_recv)) ++
      [s.next_pid, s.next_pid + 1],
    next_pid := s.next_pid + 2,
    link_gen := s.link_gen + 1,
    android_queue := s.android_queue ++
      [⟨"info", AMValue.str "You are reconnected!"⟩,
       ⟨"mode", AMValue.str "path"⟩],
    android_dropped := false }

/-- `android_dropped.set()`: the edge trigger fired by an app-link
`OSError` in `recv_android` or `android_sender`. -/
def trigger (s : SupState) : SupState :=
  { s with android_dropped := true }

/-- `n` trigger/reconnect cycles in a row. -/
def cycles : Nat → SupState → SupState
  | 0, s => s
  | n + 1, s => cycles n (reconnect_cycle (trigger s))

/-- Supervisor well-formedness: the live app workers are exactly the
tracked receive/send pair, the two are distinct, and both ids are stale
relative to `next_pid`. -/
def SupWF (s : SupState) : Prop :=
  s.live_app = [s.proc_recv, s.proc_sender] ∧
  s.proc_recv ≠ s.proc_sender ∧
  s.proc_recv < s.next_pid ∧ s.proc_sender < s.next_pid

/-! ## Exception scope of `recv_android` (`week8modded.py` lines 152-201)

The loop body wraps *only* `self.android_link.recv()` in
`try/except OSError`; everything after it (`json.loads`, the `['cat']`
lookup, and the per-category handlers) runs unprotected.  The module
defines neither `PiAction` (used at line 171) nor a `check_api` method
(used at line 179), so those handlers raise on first use. -/

/-- Python exceptions that one `recv_android` iteration can raise. -/
inductive PyExc
  | osError
  | jsonDecodeError
  | keyError (k : String)
  | nameError (n : String)
  | attributeError (n : String)
deriving DecidableEq, Repr

/-- A JSON value as far as this dispatch inspects it: a string, or any
other JSON value (dicts, lists, numbers), which compares unequal to
every string. -/
inductive JVal
  | str (s : String)
  | other
deriving DecidableEq, Repr

/-- Python's `message[k]` on a dict: the value under `k`, or a raised
`KeyError`. -/
def pyGetItem (fields : List (String × JVal)) (k : String) :
    Except PyExc JVal :=
  match fields.find? (fun p => p.1 = k) with
  | some p => Except.ok p.2
  | none => Except.error (PyExc.keyError k)

/-- What one `recv_android` iteration observes: the transport call
raised `OSError`; returned `None`; returned a string that `json.loads`
rejects; or returned a string parsing to a JSON object with the given
fields. -/
inductive RecvEvent
  | recvRaises
  | recvNone
  | recvBadJson
  | recvObj (fields : List (String × JVal))
deriving DecidableEq, Repr

/-- One iteration of the `recv_android` loop body (lines 156-201),
given the current `android_dropped` flag and the receive outcome.
`Except.ok d` means the iteration completed (next loop round) with the
flag now `d`; `Except.error e` means exception `e` escaped the loop and
the worker process dies with it. -/
def recv_android_iter (android_dropped : Bool) (ev : RecvEvent) :
    Except PyExc Bool :=
  match ev with
  | RecvEvent.recvRaises => Except.ok true
  | RecvEvent.recvNone => Except.ok android_dropped
  | RecvEvent.recvBadJson => Except.error PyExc.jsonDecodeError
  | RecvEvent.recvObj fields =>
    match pyGetItem fields "cat" with
    | Except.error e => Except.error e
    | Except.ok cat =>
      if cat = JVal.str "obstacles" then
        Except.error (PyExc.nameError "PiAction")
      else if cat = JVal.str "control" then
        match pyGetItem fields "value" with
        | Except.error e => Except.error e
        | Except.ok v =>
          if v = JVal.str "start" then
            Except.error (PyExc.attributeError "check_api")
          else Except.ok android_dropped
      else Except.ok android_dropped

/-! ## Helper lemmas -/

theorem receive_run_eq (ls : List String) (q : List CtrlCmd) :
    receive_run q ls = (q.drop (count0 ls), (q.take (count0 ls)).map frameOf) := by
  induction ls generalizing q with
  | nil => simp [receive_run, count0]
  | cons l ls ih =>
    by_cases h0 : l = "0"
    · subst h0
      cases q with
      | nil => simp [receive_run, receive_step, count0, ih]
      | cons c cs => simp [receive_run, receive_step, count0, ih]
    · by_cases h1 : l = "1" <;>
        simp [receive_run, receive_step, count0, h0, h1, ih]

theorem ljust_length (s : String) (w : Nat) :
    (ljust s w).length = max s.length w := by
  simp [ljust, String.length_append, String.length_mk]
  omega

/-! ## Claim theorems -/

/-- C2: with a sequence of commands enqueued to the controller link, the
frames written to the serial channel while processing any inbound line
stream are exactly the first `count0` commands, in FIFO order, one per
`"0"` line (`min` with the queue length when the queue runs out).  Since
this holds for every line stream, it holds for every prefix of a given
stream: the `(k+1)`-th command is written at the `(k+1)`-th `"0"` line,
which is the completion report of command `k`, so command `k+1` is never
written before command `k`'s acknowledgment is observed; and the number
of sent-but-uncompleted commands never exceeds one. -/
theorem c2_controller_fifo_flow (cmds : List CtrlCmd) (ls : List String) :
    sentFrames cmds ls = (cmds.take (count0 ls)).map frameOf ∧
    (sentFrames cmds ls).length = min (count0 ls) cmds.length ∧
    (sentFrames cmds ls).length ≤ count0 ls ∧
    (sentFrames cmds ls).length - completedCount cmds ls ≤ 1 := by
  have h : sentFrames cmds ls = (cmds.take (count0 ls)).map frameOf := by
    simp [sentFrames, receive_run_eq]
  refine ⟨h, ?_, ?_, ?_⟩ <;>
    · simp [completedCount, sentFrames, receive_run_eq, List.length_take]
      try omega

/-- C8: on reading `"0"`, `receive_thread` dequeues and sends exactly
one command when the outbound queue is non-empty and does nothing (same
queue, no frame written) when it is empty; reading `"1"` changes
nothing and writes nothing. -/
theorem c8_receive_step_cases (q : List CtrlCmd) :
    receive_step [] "0" = ([], []) ∧
    (∀ c rest, receive_step (c :: rest) "0" = (rest, [frameOf c])) ∧
    receive_step q "1" = (q, []) := by
  refine ⟨rfl, fun c rest => rfl, ?_⟩
  simp [receive_step]

/-- C7 counterexample: the claim promises a 30-byte frame for *every*
code string, but `ljust(30)` never truncates: a `StateCommand` whose
formatted text exceeds 30 characters is written at its full length.
Here `"FORWARD_TURN_EXTRA 3000 -270.0 1.7"` is 34 characters, so the
frame written has 34 bytes, not 30. -/
theorem c7_counterexample :
    (send_message "FORWARD_TURN_EXTRA" 3000 "-270.0" "1.7").length = 34 ∧
    (send_message "FORWARD_TURN_EXTRA" 3000 "-270.0" "1.7").length ≠ 30 :=
  ⟨by decide, by decide⟩

/-- C7 (amended): encoding a `StateCommand` yields the ASCII string
`"<code> <speed> <param> <scale>"` space-padded on the right to width
30 — exactly 30 bytes — whenever that formatted string is at most 30
characters long; a longer formatted string is written unpadded at its
full length. -/
theorem c7_frame_padding (state : String) (motor_speed : Int) (param scale : String) :
    ((state ++ " " ++ toString motor_speed ++ " " ++ param ++ " " ++ scale).length ≤ 30 →
      (send_message state motor_speed param scale).length = 30) ∧
    (30 < (state ++ " " ++ toString motor_speed ++ " " ++ param ++ " " ++ scale).length →
      send_message state motor_speed param scale =
        state ++ " " ++ toString motor_speed ++ " " ++ param ++ " " ++ scale) := by
  constructor
  · intro h
    rw [send_message, ljust_length]
    omega
  · intro h
    have h0 : 30 - (state ++ " " ++ toString motor_speed ++ " " ++ param ++ " "
        ++ scale).length = 0 := by omega
    rw [send_message, ljust, h0]
    simp

/-- C7 witness: the frame for `("FW", 0, 0, 0)` — formatted text
`"FW 0 0 0"`, 8 characters — is exactly 30 bytes. -/
theorem c7_frame_padding_witness :
    ("FW" ++ " " ++ toString (0 : Int) ++ " " ++ "0" ++ " " ++ "0").length ≤ 30 ∧
    (send_message "FW" 0 "0" "0").length = 30 :=
  ⟨by decide, (c7_frame_padding "FW" 0 "0" "0").1 (by decide)⟩

/-- C5: a `control`/`start` message arriving while `command_queue` is
empty and the Path Planner is reachable enqueues exactly one outbound
`error` `AndroidMessage` and changes nothing else; in particular
StartGate (`unpause`) keeps its prior value and no reset command is
queued to the controller. -/
theorem c5_start_empty_queue (s : SysState) (h : s.command_queue = []) :
    handle_start true s =
      { s with android_queue := s.android_queue ++
          [⟨"error", AMValue.str "Command queue is empty, did you set obstacles?"⟩] } ∧
    (handle_start true s).unpause = s.unpause ∧
    (handle_start true s).state_queue = s.state_queue := by
  refine ⟨?_, ?_, ?_⟩ <;> simp [handle_start, h]

/-- C5 witness: at the freshly initialized state (empty command queue,
StartGate closed) the handler yields exactly the one error message and
an unchanged gate. -/
theorem c5_start_empty_queue_witness :
    initState.command_queue = [] ∧
    (handle_start true initState =
      { initState with android_queue := initState.android_queue ++
          [⟨"error", AMValue.str "Command queue is empty, did you set obstacles?"⟩] } ∧
    (handle_start true initState).unpause = initState.unpause ∧
    (handle_start true initState).state_queue = initState.state_queue) :=
  ⟨rfl, c5_start_empty_queue initState rfl⟩

/-- C4 (divergence evidence): a `control`/`start` message with the Path
Planner unreachable and a non-empty `command_queue`.  The source logs
and enqueues "start command aborted" but has no `return`, so it falls
through: it still queues the `RS00` reset, opens StartGate (`unpause`),
and emits the `info`/`status` messages — the start is *not* aborted. -/
theorem c4_start_api_down_not_aborted :
    (handle_start false { initState with command_queue := ["FW10"] }).unpause = true ∧
    (handle_start false { initState with command_queue := ["FW10"] }).state_queue =
      [⟨"RS00", 0, "0", "0"⟩] ∧
    (handle_start false { initState with command_queue := ["FW10"] }).android_queue =
      [⟨"error", AMValue.str "API is down, start command aborted."⟩,
       ⟨"info", AMValue.str "Starting robot on path!"⟩,
       ⟨"status", AMValue.str "running"⟩] :=
  ⟨rfl, rfl, rfl⟩

/-- C3: the acknowledgment worker is a two-state machine that starts in
`AWAITING_RESET_ACK` (`rs_flag = false`); the first `ACK`-prefixed line
only moves it to `NORMAL`, leaving the lock and everything else
untouched; each later `ACK`-prefixed line (with the lock held, as the
protocol guarantees at that point) releases the lock and then pops
`path_queue` non-blockingly — on an empty queue the `Empty` handler
logs a warning and the iteration ends with only the release; otherwise
`current_location` is set from the popped entry and exactly one
`location` `AndroidMessage` is enqueued. -/
theorem c3_ack_state_machine :
    initState.rs_flag = false ∧
    (∀ (s : SysState) (line : String), strStartsWith line "ACK" = true →
       s.rs_flag = false → recv_stm_step s line = { s with rs_flag := true }) ∧
    (∀ (s : SysState) (line : String), strStartsWith line "ACK" = true →
       s.rs_flag = true → s.lock_held = true →
       (s.path_queue = [] → recv_stm_step s line = { s with lock_held := false }) ∧
       (∀ (loc : Loc) (rest : List Loc), s.path_queue = loc :: rest →
          recv_stm_step s line =
            { s with lock_held := false, path_queue := rest,
                     current_location := some loc,
                     android_queue := s.android_queue ++
                       [⟨"location", AMValue.locv loc.x loc.y loc.d⟩] })) := by
  refine ⟨rfl, ?_, ?_⟩
  · intro s line hack hrs
    simp [recv_stm_step, hack, hrs]
  · intro s line hack hrs hl
    constructor
    · intro hq
      simp [recv_stm_step, hack, hrs, hl, hq]
    · intro loc rest hq
      simp [recv_stm_step, hack, hrs, hl, hq]

/-- Concrete `NORMAL`-state system for the C3 witness. -/
def c3S : SysState :=
  { initState with rs_flag := true, lock_held := true, path_queue := [⟨1, 2, 3⟩] }

/-- C3 witness: the first `ACK` from the fresh state only flips
`rs_flag`; a later `ACK` in a held-lock state with one queued expected
location releases the lock, pops it, updates the location and emits one
`location` message. -/
theorem c3_ack_state_machine_witness :
    recv_stm_step initState "ACK" = { initState with rs_flag := true } ∧
    recv_stm_step c3S "ACK" =
      { c3S with lock_held := false, path_queue := [],
                 current_location := some ⟨1, 2, 3⟩,
                 android_queue := c3S.android_queue ++
                   [⟨"location", AMValue.locv 1 2 3⟩] } :=
  ⟨c3_ack_state_machine.2.1 initState "ACK" (by decide) rfl,
   (c3_ack_state_machine.2.2 c3S "ACK" (by decide) rfl rfl).2 ⟨1, 2, 3⟩ [] rfl⟩

/-- C10: in `recv_android` only the transport `OSError` is caught (and
survived by setting `android_dropped`); a payload `json.loads` rejects,
a JSON object without a `cat` key, an `obstacles` message (the module
defines no `PiAction`), and a `control`/`start` message (the class
defines no `check_api`) all raise uncaught and kill the worker. -/
theorem c10_recv_android_exception_scope :
    (∀ d, recv_android_iter d RecvEvent.recvRaises = Except.ok true) ∧
    (∀ d, recv_android_iter d RecvEvent.recvBadJson =
       Except.error PyExc.jsonDecodeError) ∧
    (∀ d fields, pyGetItem fields "cat" = Except.error (PyExc.keyError "cat") →
       recv_android_iter d (RecvEvent.recvObj fields) =
         Except.error (PyExc.keyError "cat")) ∧
    (∀ d fields, pyGetItem fields "cat" = Except.ok (JVal.str "obstacles") →
       recv_android_iter d (RecvEvent.recvObj fields) =
         Except.error (PyExc.nameError "PiAction")) ∧
    (∀ d fields, pyGetItem fields "cat" = Except.ok (JVal.str "control") →
       pyGetItem fields "value" = Except.ok (JVal.str "start") →
       recv_android_iter d (RecvEvent.recvObj fields) =
         Except.error (PyExc.attributeError "check_api")) := by
  refine ⟨fun d => rfl, fun d => rfl, ?_, ?_, ?_⟩
  · intro d fields h
    simp [recv_android_iter, h]
  · intro d fields h
    simp [recv_android_iter, h]
  · intro d fields h1 h2
    simp [recv_android_iter, h1, h2]

/-- C10 witness: concrete receive outcomes for each uncaught-exception
path and for the survived `OSError`. -/
theorem c10_recv_android_exception_scope_witness :
    recv_android_iter false RecvEvent.recvRaises = Except.ok true ∧
    recv_android_iter false (RecvEvent.recvObj []) =
      Except.error (PyExc.keyError "cat") ∧
    recv_android_iter false (RecvEvent.recvObj [("cat", JVal.str "obstacles")]) =
      Except.error (PyExc.nameError "PiAction") ∧
    recv_android_iter false
        (RecvEvent.recvObj [("cat", JVal.str "control"), ("value", JVal.str "start")]) =
      Except.error (PyExc.attributeError "check_api") :=
  ⟨c10_recv_android_exception_scope.1 false,
   c10_recv_android_exception_scope.2.2.1 false [] rfl,
   c10_recv_android_exception_scope.2.2.2.1 false
     [("cat", JVal.str "obstacles")] rfl,
   c10_recv_android_exception_scope.2.2.2.2 false
     [("cat", JVal.str "control"), ("value", JVal.str "start")]
     rfl rfl⟩

theorem reconnect_cycle_props (s : SupState) (hwf : SupWF s) :
    SupWF (reconnect_cycle s) ∧
    (reconnect_cycle s).android_dropped = false ∧
    (reconnect_cycle s).link_gen = s.link_gen + 1 ∧
    (reconnect_cycle s).proc_recv ∉ s.live_app ∧
    (reconnect_cycle s).proc_sender ∉ s.live_app ∧
    (reconnect_cycle s).android_queue = s.android_queue ++
      [⟨"info", AMValue.str "You are reconnected!"⟩,
       ⟨"mode", AMValue.str "path"⟩] := by
  obtain ⟨hlive, hne, hr, hs⟩ := hwf
  have hfilter : s.live_app.filter
      (fun p => p ≠ s.proc_sender && p ≠ s.proc_recv) = [] := by
    rw [hlive]
    have h1 : ((s.proc_recv ≠ s.proc_sender : Bool) &&
        (s.proc_recv ≠ s.proc_recv : Bool)) = false := by simp
    have h2 : ((s.proc_sender ≠ s.proc_sender : Bool) &&
        (s.proc_sender ≠ s.proc_recv : Bool)) = false := by simp
    simp only [List.filter_cons, List.filter_nil, h1, h2]
    simp
  refine ⟨⟨?_, ?_, ?_, ?_⟩, rfl, rfl, ?_, ?_, rfl⟩
  · simp only [reconnect_cycle, hfilter]
    simp
  · simp [reconnect_cycle]
  · simp [reconnect_cycle]
  · simp [reconnect_cycle]
  · rw [hlive]
    simp [reconnect_cycle]
    omega
  · rw [hlive]
    simp [reconnect_cycle]
    omega

/-- C6: each trigger of `android_dropped` makes the supervisor kill and
join exactly the tracked app-send/app-receive pair, re-establish the
app transport (`link_gen` grows by one), start one fresh send worker
and one fresh receive worker (ids never used before), enqueue exactly
the reconnect `info` plus the `mode`/`path` reset, and clear the flag;
and after any number of trigger/reconnect cycles exactly one live,
fresh pair of app workers remains and the flag ends cleared. -/
theorem c6_reconnect_supervisor :
    (∀ s : SupState, s.android_dropped = true → SupWF s →
       SupWF (reconnect_cycle s) ∧
       (reconnect_cycle s).android_dropped = false ∧
       (reconnect_cycle s).link_gen = s.link_gen + 1 ∧
       (reconnect_cycle s).proc_recv ∉ s.live_app ∧
       (reconnect_cycle s).proc_sender ∉ s.live_app ∧
       (reconnect_cycle s).android_queue = s.android_queue ++
         [⟨"info", AMValue.str "You are reconnected!"⟩,
          ⟨"mode", AMValue.str "path"⟩]) ∧
    (∀ (n : Nat) (s : SupState), SupWF s →
       SupWF (cycles n s) ∧ (0 < n → (cycles n s).android_dropped = false)) := by
  constructor
  · intro s _ hwf
    exact reconnect_cycle_props s hwf
  · intro n
    induction n with
    | zero => exact fun s hwf => ⟨hwf, fun h => absurd h (by omega)⟩
    | succ n ih =>
      intro s hwf
      have hwf1 : SupWF (trigger s) := hwf
      have hnext := (reconnect_cycle_props (trigger s) hwf1).1
      cases n with
      | zero =>
        exact ⟨(ih _ hnext).1, fun _ =>
          (reconnect_cycle_props (trigger s) hwf1).2.1⟩
      | succ m =>
        exact ⟨(ih _ hnext).1, fun _ => (ih _ hnext).2 (by omega)⟩

/-- Concrete well-formed supervisor state for the C6 witness: worker 0
is the receive process, worker 1 the send process, the link is down. -/
def c6S : SupState :=
  { proc_sender := 1, proc_recv := 0, live_app := [0, 1], next_pid := 2,
    link_gen := 1, android_queue := [], android_dropped := true }

/-- C6 witness: one cycle from `c6S` replaces the pair with fresh
workers 2 and 3, bumps the link generation, enqueues the two messages
and clears the flag; and two further trigger/reconnect cycles from
`c6S` again leave one well-formed pair with the flag cleared. -/
theorem c6_reconnect_supervisor_witness :
    (SupWF (reconnect_cycle c6S) ∧
     (reconnect_cycle c6S).android_dropped = false ∧
     (reconnect_cycle c6S).link_gen = c6S.link_gen + 1 ∧
     (reconnect_cycle c6S).proc_recv ∉ c6S.live_app ∧
     (reconnect_cycle c6S).proc_sender ∉ c6S.live_app ∧
     (reconnect_cycle c6S).android_queue = c6S.android_queue ++
       [⟨"info", AMValue.str "You are reconnected!"⟩,
        ⟨"mode", AMValue.str "path"⟩]) ∧
    (SupWF (cycles 2 c6S) ∧ (0 < 2 → (cycles 2 c6S).android_dropped = false)) :=
  ⟨c6_reconnect_supervisor.1 c6S rfl ⟨rfl, by decide, by decide, by decide⟩,
   c6_reconnect_supervisor.2 2 c6S ⟨rfl, by decide, by decide, by decide⟩⟩

theorem handle_start_lock_held (b : Bool) (s : SysState) :
    (handle_start b s).lock_held = s.lock_held := by
  simp only [handle_start]
  split <;> split <;> rfl

/-- C1: the command follower acquires `movement_lock` (from free to
held) on every directive it processes and never releases it — the sole
transition of the whole system that takes the lock from held to free is
the acknowledgment worker's `stm_ack` step on an `ACK`-prefixed line,
and then only in its `NORMAL` state (`rs_flag = true`). -/
theorem c1_lock_release_discipline :
    (∀ (s s' : SysState), SysStep Rule.followerStep s s' →
       s.lock_held = false ∧ s'.lock_held = true) ∧
    (∀ (r : Rule) (s s' : SysState), SysStep r s s' →
       s.lock_held = true → s'.lock_held = false →
       r = Rule.stmAck ∧ s.rs_flag = true) := by
  constructor
  · intro s s' hstep
    cases hstep with
    | follower s d rest hq hu hl => exact ⟨hl, rfl⟩
  · intro r s s' hstep hheld hfree
    cases hstep with
    | follower s d rest hq hu hl => rw [hl] at hheld; cases hheld
    | ctrl_zero s c rest hq => rw [hheld] at hfree; cases hfree
    | stm_ack s line c rest hack hp =>
      refine ⟨rfl, ?_⟩
      cases hrs : s.rs_flag with
      | true => rfl
      | false => simp [recv_stm_step, hack, hrs, hheld] at hfree
    | app_start s api_up =>
      rw [handle_start_lock_held, hheld] at hfree
      cases hfree
    | app_recv_drop s => rw [hheld] at hfree; cases hfree
    | app_sender_pop s m rest hq => rw [hheld] at hfree; cases hfree
    | app_sender_drop s m rest hq => rw [hheld] at hfree; cases hfree
    | reconnect s hd => rw [hheld] at hfree; cases hfree
    | env_command s d => rw [hheld] at hfree; cases hfree
    | env_path s l => rw [hheld] at hfree; cases hfree
    | idle s => rw [hheld] at hfree; cases hfree

/-- C1 witness state: ready follower (gate open, lock free, one
recognized directive queued). -/
def c1W0 : SysState :=
  { initState with unpause := true, command_queue := ["FW10"] }

/-- C1 witness state: after the follower forwarded `"FW10"`. -/
def c1W1 : SysState :=
  { c1W0 with command_queue := [], lock_held := true,
              state_queue := [⟨"FW10", 0, "0", "0"⟩] }

/-- C1 witness state: `NORMAL` acknowledgment worker, lock held, one
frame awaiting acknowledgment. -/
def c1A0 : SysState :=
  { initState with lock_held := true, rs_flag := true,
                   stm_pending := [⟨"FW10", 0, "0", "0"⟩] }

/-- C1 witness state: after the acknowledgment released the lock. -/
def c1A1 : SysState :=
  { c1A0 with lock_held := false, stm_pending := [] }

/-- C1 witness: a concrete follower step goes from lock-free to
lock-held, and a concrete held-to-free transition is classified as the
acknowledgment worker's step in the `NORMAL` state. -/
theorem c1_lock_release_discipline_witness :
    (c1W0.lock_held = false ∧ c1W1.lock_held = true) ∧
    (Rule.stmAck = Rule.stmAck ∧ c1A0.rs_flag = true) :=
  ⟨c1_lock_release_discipline.1 c1W0 c1W1
     (SysStep.follower c1W0 "FW10" [] rfl rfl rfl),
   c1_lock_release_discipline.2 Rule.stmAck c1A0 c1A1
     (SysStep.stm_ack c1A0 "ACK" ⟨"FW10", 0, "0", "0"⟩ [] rfl rfl) rfl rfl⟩

/-- C9 trace state: gate open, `NORMAL` acknowledgment state, lock
free, the unrecognized directive `"XX"` followed by `"FW10"` queued. -/
def c9spre : SysState :=
  { initState with unpause := true, rs_flag := true,
                   command_queue := ["XX", "FW10"] }

/-- C9 trace state: the follower consumed `"XX"`, acquired the lock and
forwarded nothing — the wedged state of the claim. -/
def c9s0 : SysState :=
  { c9spre with command_queue := ["FW10"], lock_held := true }

/-- C9 trace state: a later `control`/`start` (planner reachable,
`command_queue` non-empty) queued the `RS00` reset. -/
def c9s1 : SysState :=
  { c9s0 with state_queue := [⟨"RS00", 0, "0", "0"⟩],
              android_queue :=
                [⟨"info", AMValue.str "Starting robot on path!"⟩,
                 ⟨"status", AMValue.str "running"⟩] }

/-- C9 trace state: the controller link wrote the `RS00` frame. -/
def c9s2 : SysState :=
  { c9s1 with state_queue := [], stm_pending := [⟨"RS00", 0, "0", "0"⟩] }

/-- C9 trace state: the STM32's `ACK` for `RS00` released the lock. -/
def c9s3 : SysState :=
  { c9s2 with lock_held := false, stm_pending := [] }

/-- C9 trace state: the follower advanced and forwarded `"FW10"`. -/
def c9s4 : SysState :=
  { c9s3 with command_queue := [], lock_held := true,
              state_queue := [⟨"FW10", 0, "0", "0"⟩] }

/-- C9 counterexample: after the unrecognized directive `"XX"` leaves
the system wedged (lock held, nothing forwarded, nothing pending), the
subsequent directive `"FW10"` does **not** block forever: a later
`control`/`start` queues the `RS00` reset outside the follower, its
acknowledgment releases the lock — `recv_stm` is already in `NORMAL`,
so this `ACK` is not consumed by the reset filter — and the follower
then dequeues and forwards `"FW10"`. -/
theorem c9_counterexample :
    isStmCommand "XX" = false ∧
    SysStep Rule.followerStep c9spre c9s0 ∧
    Wedged c9s0 ∧
    SysStep (Rule.appStart true) c9s0 c9s1 ∧
    SysStep Rule.ctrlZeroSend c9s1 c9s2 ∧
    SysStep Rule.stmAck c9s2 c9s3 ∧
    SysStep Rule.followerStep c9s3 c9s4 ∧
    c9s4.state_queue = [⟨"FW10", 0, "0", "0"⟩] :=
  ⟨by decide,
   SysStep.follower c9spre "XX" ["FW10"] rfl rfl rfl,
   ⟨rfl, rfl, rfl⟩,
   SysStep.app_start c9s0 true,
   SysStep.ctrl_zero c9s1 ⟨"RS00", 0, "0", "0"⟩ [] rfl,
   SysStep.stm_ack c9s2 "ACK" ⟨"RS00", 0, "0", "0"⟩ [] rfl rfl,
   SysStep.follower c9s3 "FW10" [] rfl rfl rfl,
   rfl⟩

/-- C9 (amended): a directive with no recognized code still makes the
follower acquire `movement_lock` while forwarding nothing, so no
acknowledgment is ever produced *for it*; from the resulting wedged
state (lock held, no frame queued or pending), as long as no further
`control`/`start` message arrives — the only step that can queue a
controller frame without the follower — every system step preserves
the wedged state, and in a wedged state no follower step is possible:
every subsequent directive blocks forever on the lock acquisition. -/
theorem c9_unrecognized_directive_wedges :
    (∀ (s s' : SysState) (d : String) (rest : List String),
       SysStep Rule.followerStep s s' → s.command_queue = d :: rest →
       isStmCommand d = false →
       s'.lock_held = true ∧ s'.state_queue = s.state_queue ∧
       s'.stm_pending = s.stm_pending) ∧
    (∀ (r : Rule) (s s' : SysState), Wedged s → SysStep r s s' →
       (∀ b, r ≠ Rule.appStart b) → Wedged s') ∧
    (∀ s s' : SysState, Wedged s → ¬ SysStep Rule.followerStep s s') := by
  refine ⟨?_, ?_, ?_⟩
  · intro s s' d rest hstep hq hd
    cases hstep with
    | follower s d2 rest2 hq2 hu hl =>
      rw [hq] at hq2
      injection hq2 with h1 h2
      subst h1
      subst h2
      refine ⟨rfl, ?_, rfl⟩
      simp [hd]
  · intro r s s' hw hstep hne
    obtain ⟨hw1, hw2, hw3⟩ := hw
    cases hstep with
    | follower s d rest hq hu hl => rw [hl] at hw1; cases hw1
    | ctrl_zero s c rest hq => rw [hw2] at hq; cases hq
    | stm_ack s line c rest hack hp => rw [hw3] at hp; cases hp
    | app_start s api_up => exact absurd rfl (hne api_up)
    | app_recv_drop s => exact ⟨hw1, hw2, hw3⟩
    | app_sender_pop s m rest hq => exact ⟨hw1, hw2, hw3⟩
    | app_sender_drop s m rest hq => exact ⟨hw1, hw2, hw3⟩
    | reconnect s hd => exact ⟨hw1, hw2, hw3⟩
    | env_command s d => exact ⟨hw1, hw2, hw3⟩
    | env_path s l => exact ⟨hw1, hw2, hw3⟩
    | idle s => exact ⟨hw1, hw2, hw3⟩
  · intro s s' hw hstep
    obtain ⟨hw1, hw2, hw3⟩ := hw
    cases hstep with
    | follower s d rest hq hu hl => rw [hl] at hw1; cases hw1

/-- C9 witness: concrete instantiations — the `"XX"` step wedges the
trace state, an idle step preserves wedgedness, and from the wedged
state no follower step to the forwarded state exists. -/
theorem c9_unrecognized_directive_wedges_witness :
    (c9s0.lock_held = true ∧ c9s0.state_queue = c9spre.state_queue ∧
     c9s0.stm_pending = c9spre.stm_pending) ∧
    Wedged c9s0 ∧
    ¬ SysStep Rule.followerStep c9s0 c9s4 :=
  ⟨c9_unrecognized_directive_wedges.1 c9spre c9s0 "XX" ["FW10"]
     (SysStep.follower c9spre "XX" ["FW10"] rfl rfl rfl) rfl (by decide),
   c9_unrecognized_directive_wedges.2.1 Rule.noop c9s0 c9s0
     ⟨rfl, rfl, rfl⟩ (SysStep.idle c9s0) (fun b h => nomatch h),
   c9_unrecognized_directive_wedges.2.2 c9s0 c9s4 ⟨rfl, rfl, rfl⟩⟩

end Rpi
